import Mathlib

/-!
Shallow embedding of `src/hooks/use-smart-nodes-partner-transfer.tsx`
(repository moldy530/web3-webflow).

The hook `useSmartNodesPartnerTransfer` orchestrates a purchase: schema
validation (zod), capacity validation against partner data, stored-email
lookup, an optional test-flag timeout, network validation, fiat-to-crypto
price conversion, wallet submission, referral-code issuance, ledger
recording, and navigation to a result screen.

The embedding models JavaScript numbers as rationals (exact arithmetic),
each awaited external collaborator call as an `Except`-valued oracle
supplied by an environment record, and the side effects of one invocation
of `transfer` as a trace: a list of events in program order.  Errors thrown
by collaborators are classified the way the catch block classifies them
(insufficient funds / user rejected / other).
-/

/-- A JavaScript value as far as the zod schema distinguishes them:
a string, a number, or anything else (undefined, null, object, ...). -/
inductive JSVal where
  | str (s : String)
  | num (q : ℚ)
  | undef
deriving DecidableEq

/-- True exactly on string values (zod `z.string()`). -/
def JSVal.isStr : JSVal → Bool
  | JSVal.str _ => true
  | _ => false

/-- True exactly on numeric values (zod `z.number()`). -/
def JSVal.isNum : JSVal → Bool
  | JSVal.num _ => true
  | _ => false

/-- The raw hook arguments `{ referralCode, amount, bonusPlan }` before
schema validation. -/
structure RawInput where
  referralCode : JSVal
  amount : JSVal
  bonusPlan : JSVal
deriving DecidableEq

/-- `TransferType = z.infer<typeof transferSchema>`: the parsed request. -/
structure TransferType where
  referralCode : String
  amount : ℚ
  bonusPlan : ℚ
deriving DecidableEq

/-- `transferSchema.safeParse`: succeeds iff `referralCode` is a string and
`amount` and `bonusPlan` are numbers.  Note `z.string()` accepts the empty
string. -/
def transferSchemaParse (i : RawInput) : Option TransferType :=
  match i.referralCode, i.amount, i.bonusPlan with
  | JSVal.str r, JSVal.num a, JSVal.num b => some ⟨r, a, b⟩
  | _, _, _ => none

/-- Classification of a thrown error, as the catch block distinguishes
them via `isInsufficientFundsError` / `isRejectedError`. -/
inductive ErrKind where
  | insufficientFunds
  | rejected
  | other
deriving DecidableEq

/-- The `data` object from `usePartner()`: partner pricing context. -/
structure PartnerData where
  currentPrice : ℚ
  paymentsWallet : String
deriving DecidableEq

/-- The result of `getPartnerData(partnerId)`: capacity data. -/
structure CatalogData where
  availableSmartNodes : ℚ
deriving DecidableEq

/-- The argument object of `purchaseTracker`. -/
structure PurchaseRecord where
  partnerId : String
  transactionHash : String
  totalInEth : ℚ
  totalInUsd : ℚ
  quantity : ℚ
  bonusPlan : ℚ
  wallet : String
  email : String
  userReferralCode : String
  transactionReferralCode : String
deriving DecidableEq

/-- The opaque bundle produced by `encryptData({ hash, email })`; modelled
as an injective pairing (the encoding is one-way obfuscation, not studied
here). -/
structure Encrypted where
  hash : String
  email : String
deriving DecidableEq

/-- `encryptData({ hash, email })`. -/
def encryptData (hash email : String) : Encrypted := ⟨hash, email⟩

/-- What the `setTimeout` callback scheduled under the test flag will do:
navigate with an encoded bundle and clear the loading flag. -/
structure TimeoutAction where
  navigateTo : Encrypted
  clearLoading : Bool
deriving DecidableEq

/-- One observable side effect of a `transfer` invocation, in program
order. -/
inductive Event where
  | setLoading (b : Bool)
  | setError (msg : String)
  | callGetPartnerData (partnerId : String)
  | callValidateNetwork
  | callGetConversionRate
  | callSendUserOperation (target : String) (value : ℤ)
  | callGetUserReferralCode (wallet : String) (email : String)
  | callPurchaseTracker (rec : PurchaseRecord)
  | addBeforeUnload
  | removeBeforeUnload
  | navigate (result : Encrypted)
  | scheduleTimeout (delayMs : ℕ) (action : TimeoutAction)
  | consoleLog
deriving DecidableEq

/-- The environment of one `transfer` invocation: the hook state at call
time plus the response each external collaborator would give.  `Except`
captures that an awaited call either returns a value or throws. -/
structure Env where
  loading : Bool
  partnerId : Option String
  catalogData : Option CatalogData
  contextData : Option PartnerData
  user : Option String
  storedEmail : Option String
  searchParams : List (String × String)
  networkOk : Except ErrKind Bool
  conversionRate : Except ErrKind ℚ
  sendResult : Except ErrKind String
  referralResult : Except ErrKind String
  trackerResult : Except ErrKind Bool

/-- `URLSearchParams.get`: first value bound to the key, if any. -/
def paramsGet (ps : List (String × String)) (k : String) : Option String :=
  (ps.find? (fun p => p.1 == k)).map (fun p => p.2)

/-- JavaScript truthiness of `params.get(k)`: present and non-empty. -/
def truthy : Option String → Bool
  | none => false
  | some s => !s.isEmpty

/-- JavaScript `parseInt(String(x))` on a finite number `x`: truncation
toward zero (the integer part printed before the decimal point). -/
def ratTrunc (x : ℚ) : ℤ :=
  if 0 ≤ x then ⌊x⌋ else -⌊-x⌋

/-- The bonus computed in `validateAmount`:
`parseInt(String(amount >= 3 ? amount / 3 : 0))`. -/
def bonusValue (amount : ℚ) : ℤ :=
  ratTrunc (if 3 ≤ amount then amount / 3 else 0)

/-- Fixed user-facing messages, verbatim from the source. -/
def msgSchema : String :=
  "Oops! It looks like you didn\x27t fill in the amount correctly"

def msgCapacity : String :=
  "Oops! It looks like you are trying to buy more than we have available."

def msgEmail : String :=
  "Oops! Error to retrieve your email"

def msgNetwork : String :=
  "Oops! Looks like you\x27re using a wrong network"

def msgFunds : String :=
  "Oops! You do not have sufficient funds to complete your purchase."

def msgRejected : String :=
  "Oops! Looks like you rejected the transaction signature."

def msgGeneric : String :=
  "Oops! Looks like an error occurred while trying to complete your purchase."

/-- `validateAmount()`: resolve the partner id (no call if absent), call
`getPartnerData`, and check `amount + bonusValue <= availableSmartNodes`.
Returns the events it emits and its boolean result. -/
def validateAmount (amount : ℚ) (env : Env) : List Event × Bool :=
  match env.partnerId with
  | none => ([], false)
  | some pid =>
    match env.catalogData with
    | none => ([Event.callGetPartnerData pid], false)
    | some v =>
      ([Event.callGetPartnerData pid],
        if v.availableSmartNodes < amount + (bonusValue amount : ℚ) then false
        else true)

/-- The catch block: optionally log when the `debugging` query parameter is
truthy, then classify the thrown error into one of three messages. -/
def catchEvents (env : Env) (e : ErrKind) : List Event :=
  (if truthy (paramsGet env.searchParams "debugging") then [Event.consoleLog]
   else []) ++
  [Event.setError
    (match e with
     | ErrKind.insufficientFunds => msgFunds
     | ErrKind.rejected => msgRejected
     | ErrKind.other => msgGeneric)]

/-- The body of the `try` block of `transfer`, after the stored email is in
hand: network validation, price conversion, wallet submission, referral
issuance, ledger recording, navigation.  Any thrown error falls to
`catchEvents`.  Note the `beforeunload` listener is removed only on the
path where every awaited call after it returns. -/
def tryBody (req : TransferType) (email : String) (env : Env) : List Event :=
  Event.callValidateNetwork ::
  match env.networkOk with
  | Except.error e => catchEvents env e
  | Except.ok false => [Event.setError msgNetwork, Event.setLoading false]
  | Except.ok true =>
    match env.user, env.contextData, env.partnerId with
    | some wallet, some d, some pid =>
      let totalInUsd := d.currentPrice * req.amount
      Event.callGetConversionRate ::
      match env.conversionRate with
      | Except.error e => catchEvents env e
      | Except.ok conversionRate =>
        let totalInEth := totalInUsd / conversionRate
        let weiValue : ℤ := ⌊totalInEth * 10 ^ 18⌋
        Event.addBeforeUnload ::
        Event.callSendUserOperation d.paymentsWallet weiValue ::
        match env.sendResult with
        | Except.error e => catchEvents env e
        | Except.ok hash =>
          Event.callGetUserReferralCode wallet email ::
          match env.referralResult with
          | Except.error e => catchEvents env e
          | Except.ok userReferralCode =>
            Event.callPurchaseTracker
              { partnerId := pid
                transactionHash := hash
                totalInEth := totalInEth
                totalInUsd := totalInUsd
                quantity := req.amount
                bonusPlan := req.bonusPlan
                wallet := wallet
                email := email
                userReferralCode := userReferralCode
                transactionReferralCode := req.referralCode } ::
            match env.trackerResult with
            | Except.error e => catchEvents env e
            | Except.ok status =>
              Event.removeBeforeUnload ::
              Event.navigate (encryptData hash email) ::
              if status then [] else [Event.setError msgGeneric]
    | _, _, _ => catchEvents env ErrKind.other

/-- The `transfer` handler, as a trace of its side effects in program
order: set loading, clear the error, schema validation, capacity
validation, stored-email lookup, the test-flag timeout, then the
try/catch/finally section (the `finally` appends the final
`setLoading false`). -/
def transfer (input : RawInput) (env : Env) : List Event :=
  Event.setLoading true :: Event.setError "" ::
  match transferSchemaParse input with
  | none => [Event.setError msgSchema, Event.setLoading false]
  | some req =>
    (validateAmount req.amount env).1 ++
    if !(validateAmount req.amount env).2 then
      [Event.setError msgCapacity, Event.setLoading false]
    else
      match env.storedEmail with
      | none => [Event.setError msgEmail, Event.setLoading false]
      | some email =>
        (if truthy (paramsGet env.searchParams "testSuccessModalOption") then
          [Event.scheduleTimeout 3000
            { navigateTo := encryptData "0x123456789abcdef" email
              clearLoading := true }]
         else []) ++
        tryBody req email env ++ [Event.setLoading false]

/-- The wallet submissions attempted in a trace (target, value). -/
def walletCalls (tr : List Event) : List (String × ℤ) :=
  tr.filterMap fun e =>
    match e with
    | Event.callSendUserOperation t v => some (t, v)
    | _ => none

/-- The ledger records attempted in a trace. -/
def ledgerCalls (tr : List Event) : List PurchaseRecord :=
  tr.filterMap fun e =>
    match e with
    | Event.callPurchaseTracker r => some r
    | _ => none

/-- Whether an event is an outbound collaborator call. -/
def isCallEvent : Event → Bool
  | Event.callGetPartnerData _ => true
  | Event.callValidateNetwork => true
  | Event.callGetConversionRate => true
  | Event.callSendUserOperation _ _ => true
  | Event.callGetUserReferralCode _ _ => true
  | Event.callPurchaseTracker _ => true
  | _ => false

/-- Number of outbound collaborator calls in a trace. -/
def networkCalls (tr : List Event) : ℕ :=
  (tr.filter isCallEvent).length

/-- The error messages set in a trace, in order. -/
def errorsSet (tr : List Event) : List String :=
  tr.filterMap fun e =>
    match e with
    | Event.setError m => some m
    | _ => none

/-- The error state after the trace (an invocation always clears it
first). -/
def finalError (tr : List Event) : String :=
  (errorsSet tr).getLast?.getD ""

/-- The timeouts scheduled in a trace. -/
def timeoutsScheduled (tr : List Event) : List (ℕ × TimeoutAction) :=
  tr.filterMap fun e =>
    match e with
    | Event.scheduleTimeout d a => some (d, a)
    | _ => none

/-- A request that passes all validations on the happy environment. -/
def happyInput : RawInput :=
  ⟨JSVal.str "FRIEND", JSVal.num 10, JSVal.num 1⟩

/-- An environment where every step succeeds: partner present, capacity
100, price 5, rate 2000, submission returns hash `0xHASH`, tracker
succeeds. -/
def happyEnv : Env where
  loading := false
  partnerId := some "p1"
  catalogData := some ⟨100⟩
  contextData := some ⟨5, "0xPAY"⟩
  user := some "0xUSER"
  storedEmail := some "a@b.c"
  searchParams := []
  networkOk := Except.ok true
  conversionRate := Except.ok 2000
  sendResult := Except.ok "0xHASH"
  referralResult := Except.ok "NEWCODE"
  trackerResult := Except.ok true

/-- Truncation toward zero agrees with floor on non-negative arguments. -/
theorem ratTrunc_of_nonneg {x : ℚ} (h : 0 ≤ x) : ratTrunc x = ⌊x⌋ := by
  simp [ratTrunc, h]

/-- C3: for every quantity, the bonus computed by the capacity-validation
step equals `⌊quantity / 3⌋` when `quantity ≥ 3` and `0` when
`quantity < 3`; in particular for quantity in {0,1,2,3,4,5,6,9,10}. -/
theorem C3_bonus_formula :
    (∀ q : ℚ, (3 ≤ q → bonusValue q = ⌊q / 3⌋) ∧ (q < 3 → bonusValue q = 0)) ∧
    bonusValue 0 = 0 ∧ bonusValue 1 = 0 ∧ bonusValue 2 = 0 ∧
    bonusValue 3 = 1 ∧ bonusValue 4 = 1 ∧ bonusValue 5 = 1 ∧
    bonusValue 6 = 2 ∧ bonusValue 9 = 3 ∧ bonusValue 10 = 3 := by
  have key : ∀ q : ℚ, (3 ≤ q → bonusValue q = ⌊q / 3⌋) ∧ (q < 3 → bonusValue q = 0) := by
    intro q
    constructor
    · intro h
      have h0 : (0 : ℚ) ≤ q / 3 := by positivity
      simp [bonusValue, h, ratTrunc_of_nonneg h0]
    · intro h
      simp [bonusValue, not_le.mpr h, ratTrunc]
  refine ⟨key, ?_, ?_, ?_, ?_, ?_, ?_, ?_, ?_, ?_⟩
  · exact (key 0).2 (by norm_num)
  · exact (key 1).2 (by norm_num)
  · exact (key 2).2 (by norm_num)
  · rw [(key 3).1 (by norm_num)]; norm_num
  · rw [(key 4).1 (by norm_num)]; norm_num
  · rw [(key 5).1 (by norm_num)]; norm_num
  · rw [(key 6).1 (by norm_num)]; norm_num
  · rw [(key 9).1 (by norm_num)]; norm_num
  · rw [(key 10).1 (by norm_num)]; norm_num

/-- C2: when `quantity + bonus` exceeds the partner's available capacity,
`transfer` stops with the insufficient-capacity message and the wallet
gateway is never invoked: the whole trace is the two state updates, the
catalog lookup, the error message and the cleared loading flag. -/
theorem C2_insufficient_capacity (input : RawInput) (env : Env)
    (req : TransferType) (pid : String) (cat : CatalogData)
    (hreq : transferSchemaParse input = some req)
    (hpid : env.partnerId = some pid)
    (hcat : env.catalogData = some cat)
    (hover : cat.availableSmartNodes < req.amount + (bonusValue req.amount : ℚ)) :
    transfer input env =
      [Event.setLoading true, Event.setError "", Event.callGetPartnerData pid,
       Event.setError msgCapacity, Event.setLoading false] ∧
    walletCalls (transfer input env) = [] := by
  have hva : validateAmount req.amount env = ([Event.callGetPartnerData pid], false) := by
    simp [validateAmount, hpid, hcat, hover]
  have ht : transfer input env =
      [Event.setLoading true, Event.setError "", Event.callGetPartnerData pid,
       Event.setError msgCapacity, Event.setLoading false] := by
    simp [transfer, hreq, hva]
  exact ⟨ht, by rw [ht]; simp [walletCalls]⟩

/-- Witness for C2, the spec's concrete scenario: quantity 2 (bonus 0)
against available capacity 1 fails with the capacity message and no wallet
call. -/
theorem C2_witness :
    transfer ⟨JSVal.str "FRIEND", JSVal.num 2, JSVal.num 0⟩
        { happyEnv with catalogData := some ⟨1⟩ } =
      [Event.setLoading true, Event.setError "", Event.callGetPartnerData "p1",
       Event.setError msgCapacity, Event.setLoading false] ∧
    walletCalls (transfer ⟨JSVal.str "FRIEND", JSVal.num 2, JSVal.num 0⟩
      { happyEnv with catalogData := some ⟨1⟩ }) = [] :=
  C2_insufficient_capacity _ _ ⟨"FRIEND", 2, 0⟩ "p1" ⟨1⟩ rfl rfl rfl
    (by norm_num [bonusValue, ratTrunc])

/-- C6 (amended): when the request fails the zod schema — `referralCode`
not a string, or `amount` or `bonusPlan` not numeric — `transfer` stops
with the schema message and zero collaborator calls.  (The unamended
claim's "non-empty string" is refuted separately: `z.string()` accepts
`""`.) -/
theorem C6_invalid_input (input : RawInput) (env : Env)
    (h : (input.referralCode.isStr && input.amount.isNum &&
      input.bonusPlan.isNum) = false) :
    transfer input env =
      [Event.setLoading true, Event.setError "",
       Event.setError msgSchema, Event.setLoading false] ∧
    networkCalls (transfer input env) = 0 := by
  have hp : transferSchemaParse input = none := by
    cases hr : input.referralCode <;> cases ha : input.amount <;>
      cases hb : input.bonusPlan <;>
      simp_all [transferSchemaParse, JSVal.isStr, JSVal.isNum]
  have ht : transfer input env =
      [Event.setLoading true, Event.setError "",
       Event.setError msgSchema, Event.setLoading false] := by
    simp [transfer, hp]
  exact ⟨ht, by rw [ht]; simp [networkCalls, isCallEvent]⟩

/-- Witness for C6: a request whose `amount` is not numeric fails with the
schema message and makes no collaborator call. -/
theorem C6_witness :
    transfer ⟨JSVal.str "FRIEND", JSVal.undef, JSVal.num 0⟩ happyEnv =
      [Event.setLoading true, Event.setError "",
       Event.setError msgSchema, Event.setLoading false] ∧
    networkCalls (transfer ⟨JSVal.str "FRIEND", JSVal.undef, JSVal.num 0⟩
      happyEnv) = 0 :=
  C6_invalid_input _ _ rfl

/-- Counterexample to C6 as stated: `referralCode = ""` is not a non-empty
string, yet the schema accepts it — the execution does not stop with the
schema message, and collaborator calls are performed. -/
theorem C6_counterexample :
    Event.setError msgSchema ∉
      transfer ⟨JSVal.str "", JSVal.num 2, JSVal.num 0⟩ happyEnv ∧
    0 < networkCalls (transfer ⟨JSVal.str "", JSVal.num 2, JSVal.num 0⟩
      happyEnv) := by
  have ht : transfer ⟨JSVal.str "", JSVal.num 2, JSVal.num 0⟩ happyEnv =
      [Event.setLoading true, Event.setError "", Event.callGetPartnerData "p1",
       Event.callValidateNetwork, Event.callGetConversionRate,
       Event.addBeforeUnload,
       Event.callSendUserOperation "0xPAY" 5000000000000000,
       Event.callGetUserReferralCode "0xUSER" "a@b.c",
       Event.callPurchaseTracker
         { partnerId := "p1", transactionHash := "0xHASH",
           totalInEth := 1/200, totalInUsd := 10, quantity := 2, bonusPlan := 0,
           wallet := "0xUSER", email := "a@b.c", userReferralCode := "NEWCODE",
           transactionReferralCode := "" },
       Event.removeBeforeUnload,
       Event.navigate (encryptData "0xHASH" "a@b.c"),
       Event.setLoading false] := by
    norm_num [transfer, tryBody, validateAmount, catchEvents, happyEnv,
      transferSchemaParse, bonusValue, ratTrunc, paramsGet, truthy]
  rw [ht]
  constructor
  · simp [msgSchema]
  · simp [networkCalls, isCallEvent]

/-- Evaluation of the happy-path invocation: every validation passes,
price 5 × quantity 10 = 50 fiat units, rate 2000, so the submitted
amount is ⌊(50/2000)·10¹⁸⌋ = 25000000000000000 wei. -/
theorem transfer_happy_eval :
    transfer happyInput happyEnv =
      [Event.setLoading true, Event.setError "", Event.callGetPartnerData "p1",
       Event.callValidateNetwork, Event.callGetConversionRate,
       Event.addBeforeUnload,
       Event.callSendUserOperation "0xPAY" 25000000000000000,
       Event.callGetUserReferralCode "0xUSER" "a@b.c",
       Event.callPurchaseTracker
         { partnerId := "p1", transactionHash := "0xHASH",
           totalInEth := 1/40, totalInUsd := 50, quantity := 10, bonusPlan := 1,
           wallet := "0xUSER", email := "a@b.c", userReferralCode := "NEWCODE",
           transactionReferralCode := "FRIEND" },
       Event.removeBeforeUnload,
       Event.navigate (encryptData "0xHASH" "a@b.c"),
       Event.setLoading false] := by
  norm_num [transfer, tryBody, validateAmount, catchEvents, happyEnv,
    happyInput, transferSchemaParse, bonusValue, ratTrunc, paramsGet, truthy]

/-- C8 (amended): the three pre-submission validation failures — no
partner context, catalog lookup unavailable, capacity exceeded — all abort
before any wallet call, but they are not distinguished: `validateAmount`
collapses them into one boolean and all three surface the same fixed
capacity message. -/
theorem C8_presubmission_failures (input : RawInput) (env : Env)
    (req : TransferType)
    (hreq : transferSchemaParse input = some req)
    (hfail : env.partnerId = none ∨ env.catalogData = none ∨
      ∃ cat, env.catalogData = some cat ∧
        cat.availableSmartNodes < req.amount + (bonusValue req.amount : ℚ)) :
    finalError (transfer input env) = msgCapacity ∧
    walletCalls (transfer input env) = [] := by
  have hva : (validateAmount req.amount env).2 = false := by
    rcases hfail with h | h | ⟨cat, hc, hover⟩
    · simp [validateAmount, h]
    · cases hp : env.partnerId <;> simp [validateAmount, h, hp]
    · cases hp : env.partnerId <;> simp [validateAmount, hp, hc, hover]
  have hv1 : (validateAmount req.amount env).1 = [] ∨
      ∃ p, (validateAmount req.amount env).1 = [Event.callGetPartnerData p] := by
    cases hp : env.partnerId with
    | none => left; simp [validateAmount, hp]
    | some p =>
      right
      cases hc : env.catalogData <;> exact ⟨p, by simp [validateAmount, hp, hc]⟩
  have ht : transfer input env =
      Event.setLoading true :: Event.setError "" ::
      ((validateAmount req.amount env).1 ++
        [Event.setError msgCapacity, Event.setLoading false]) := by
    simp [transfer, hreq, hva]
  rcases hv1 with h1 | ⟨p, h1⟩ <;>
    rw [ht, h1] <;>
    exact ⟨by simp [finalError, errorsSet], by simp [walletCalls]⟩

/-- Witness for C8 (amended): with no partner context, the attempt stops
with the shared capacity message and no wallet call. -/
theorem C8_witness :
    finalError (transfer happyInput { happyEnv with partnerId := none }) =
      msgCapacity ∧
    walletCalls (transfer happyInput { happyEnv with partnerId := none }) =
      [] :=
  C8_presubmission_failures _ _ ⟨"FRIEND", 10, 1⟩ rfl (Or.inl rfl)

/-- Counterexample to C8 as stated: the no-partner-context failure, the
catalog-unavailable failure and the capacity-exceeded failure all surface
the identical message, so the kinds do not each carry a distinct message. -/
theorem C8_counterexample :
    finalError (transfer happyInput { happyEnv with partnerId := none }) =
      finalError (transfer ⟨JSVal.str "FRIEND", JSVal.num 2, JSVal.num 0⟩
        { happyEnv with catalogData := some ⟨1⟩ }) ∧
    finalError (transfer happyInput { happyEnv with partnerId := none }) =
      msgCapacity ∧
    finalError (transfer happyInput { happyEnv with catalogData := none }) =
      msgCapacity := by
  have h1 : transfer happyInput { happyEnv with partnerId := none } =
      [Event.setLoading true, Event.setError "",
       Event.setError msgCapacity, Event.setLoading false] := by
    simp [transfer, validateAmount, happyInput, happyEnv, transferSchemaParse]
  have h2 : transfer ⟨JSVal.str "FRIEND", JSVal.num 2, JSVal.num 0⟩
      { happyEnv with catalogData := some ⟨1⟩ } =
      [Event.setLoading true, Event.setError "", Event.callGetPartnerData "p1",
       Event.setError msgCapacity, Event.setLoading false] := by
    norm_num [transfer, validateAmount, happyEnv, transferSchemaParse,
      bonusValue, ratTrunc]
  have h3 : transfer happyInput { happyEnv with catalogData := none } =
      [Event.setLoading true, Event.setError "", Event.callGetPartnerData "p1",
       Event.setError msgCapacity, Event.setLoading false] := by
    simp [transfer, validateAmount, happyInput, happyEnv, transferSchemaParse]
  rw [h1, h2, h3]
  exact ⟨by simp [finalError, errorsSet], by simp [finalError, errorsSet],
    by simp [finalError, errorsSet]⟩

/-- C9 (amended): `transfer` contains no re-entrancy guard — its behaviour
is entirely independent of the `loading` (inProgress) flag at call time;
rejecting re-entrant calls is left to the caller. -/
theorem C9_no_reentrancy_guard (input : RawInput) (env : Env) :
    transfer input { env with loading := true } =
      transfer input { env with loading := false } := by
  rfl

/-- Counterexample to C9 as stated: invoked while `loading` is already
true, `transfer` still runs a full second attempt, up to and including a
wallet submission. -/
theorem C9_counterexample :
    walletCalls (transfer happyInput { happyEnv with loading := true }) =
      [("0xPAY", 25000000000000000)] := by
  have ht : transfer happyInput { happyEnv with loading := true } =
      transfer happyInput happyEnv := by rfl
  rw [ht, transfer_happy_eval]
  rfl

/-- C10 (amended): once schema, capacity and stored-email validation have
passed, if the URL query string binds `testSuccessModalOption` to a
non-empty value, `transfer` schedules a 3-second timeout that navigates to
the result screen with the encoded fixed fake hash and stored email and
clears the loading flag — with no assumption on whether any wallet
submission occurs or succeeds. -/
theorem C10_test_flag (input : RawInput) (env : Env) (req : TransferType)
    (email v : String)
    (hreq : transferSchemaParse input = some req)
    (hvalid : (validateAmount req.amount env).2 = true)
    (hemail : env.storedEmail = some email)
    (hflag : paramsGet env.searchParams "testSuccessModalOption" = some v)
    (hne : v ≠ "") :
    Event.scheduleTimeout 3000
        { navigateTo := encryptData "0x123456789abcdef" email,
          clearLoading := true } ∈
      transfer input env := by
  have htr : truthy (paramsGet env.searchParams "testSuccessModalOption") =
      true := by
    have hie : v.isEmpty = false := by
      cases h : v.isEmpty
      · rfl
      · exact absurd ((String.isEmpty_iff v).mp (by simp [h])) hne
    rw [hflag]
    simp [truthy, hie]
  simp [transfer, hreq, hvalid, hemail, htr]

/-- Witness for C10 (amended): with `testSuccessModalOption=1` in the
query string, the happy environment schedules the fake-success timeout. -/
theorem C10_witness :
    Event.scheduleTimeout 3000
        { navigateTo := encryptData "0x123456789abcdef" "a@b.c",
          clearLoading := true } ∈
      transfer happyInput
        { happyEnv with searchParams := [("testSuccessModalOption", "1")] } :=
  C10_test_flag _ _ ⟨"FRIEND", 10, 1⟩ "a@b.c" "1" rfl
    (by norm_num [validateAmount, happyEnv, bonusValue, ratTrunc]) rfl rfl
    (by simp)

/-- Counterexample to C10 as stated: the query string merely containing the
parameter is not enough — bound to the empty value (`?testSuccessModalOption=`),
`params.get` returns a falsy string and no timeout is scheduled, although
every validation passes. -/
theorem C10_counterexample :
    timeoutsScheduled (transfer happyInput
      { happyEnv with searchParams := [("testSuccessModalOption", "")] }) =
      [] := by
  have ht : transfer happyInput
      { happyEnv with searchParams := [("testSuccessModalOption", "")] } =
      transfer happyInput happyEnv := by rfl
  rw [ht, transfer_happy_eval]
  rfl

/-- C7 (code evaluated at the failing input): when the wallet submission
throws — here a user-rejected signature — the `beforeunload` guard that was
acquired before submission is never released: the trace adds the listener
and contains no removal, while the failure is duly surfaced. -/
theorem C7_guard_leak :
    Event.addBeforeUnload ∈
      transfer happyInput
        { happyEnv with sendResult := Except.error ErrKind.rejected } ∧
    Event.removeBeforeUnload ∉
      transfer happyInput
        { happyEnv with sendResult := Except.error ErrKind.rejected } ∧
    Event.setError msgRejected ∈
      transfer happyInput
        { happyEnv with sendResult := Except.error ErrKind.rejected } := by
  have ht : transfer happyInput
      { happyEnv with sendResult := Except.error ErrKind.rejected } =
      [Event.setLoading true, Event.setError "", Event.callGetPartnerData "p1",
       Event.callValidateNetwork, Event.callGetConversionRate,
       Event.addBeforeUnload,
       Event.callSendUserOperation "0xPAY" 25000000000000000,
       Event.setError msgRejected, Event.setLoading false] := by
    norm_num [transfer, tryBody, validateAmount, catchEvents, happyEnv,
      happyInput, transferSchemaParse, bonusValue, ratTrunc, paramsGet, truthy]
  rw [ht]
  refine ⟨by simp, ?_, by simp⟩
  simp

/-- The catch block performs no wallet submission. -/
theorem wallet_not_in_catchEvents (env : Env) (e : ErrKind) (t : String)
    (v : ℤ) : Event.callSendUserOperation t v ∉ catchEvents env e := by
  cases h : truthy (paramsGet env.searchParams "debugging") <;> cases e <;>
    simp [catchEvents, h]

/-- C4 (amended): when the wallet submission succeeds and the subsequent
referral issuance also succeeds, exactly one ledger record is attempted,
and it carries the transaction hash the wallet gateway returned (together
with the computed totals and request data). -/
theorem C4_ledger_record (input : RawInput) (env : Env) (req : TransferType)
    (pid wallet email hash urc : String) (d : PartnerData) (cat : CatalogData)
    (rate : ℚ)
    (hreq : transferSchemaParse input = some req)
    (hpid : env.partnerId = some pid)
    (hcat : env.catalogData = some cat)
    (hok : ¬(cat.availableSmartNodes < req.amount + (bonusValue req.amount : ℚ)))
    (hemail : env.storedEmail = some email)
    (hnet : env.networkOk = Except.ok true)
    (husr : env.user = some wallet)
    (hctx : env.contextData = some d)
    (hconv : env.conversionRate = Except.ok rate)
    (hsend : env.sendResult = Except.ok hash)
    (href : env.referralResult = Except.ok urc) :
    ledgerCalls (transfer input env) =
      [{ partnerId := pid, transactionHash := hash,
         totalInEth := d.currentPrice * req.amount / rate,
         totalInUsd := d.currentPrice * req.amount,
         quantity := req.amount, bonusPlan := req.bonusPlan,
         wallet := wallet, email := email, userReferralCode := urc,
         transactionReferralCode := req.referralCode }] := by
  rcases htrk : env.trackerResult with e | status
  · cases hdbg : truthy (paramsGet env.searchParams "debugging") <;>
    cases htf : truthy (paramsGet env.searchParams "testSuccessModalOption") <;>
    cases e <;>
      simp [transfer, tryBody, validateAmount, catchEvents, hreq, hpid, hcat,
        hok, hemail, hnet, husr, hctx, hconv, hsend, href, htrk, hdbg, htf,
        ledgerCalls]
  · cases status <;>
    cases htf : truthy (paramsGet env.searchParams "testSuccessModalOption") <;>
      simp [transfer, tryBody, validateAmount, catchEvents, hreq, hpid, hcat,
        hok, hemail, hnet, husr, hctx, hconv, hsend, href, htrk, htf,
        ledgerCalls]

/-- Witness for C4 (amended): on the happy path the single attempted
ledger record carries the returned hash `0xHASH`. -/
theorem C4_witness :
    ledgerCalls (transfer happyInput happyEnv) =
      [{ partnerId := "p1", transactionHash := "0xHASH",
         totalInEth := 5 * 10 / 2000, totalInUsd := 5 * 10,
         quantity := 10, bonusPlan := 1,
         wallet := "0xUSER", email := "a@b.c", userReferralCode := "NEWCODE",
         transactionReferralCode := "FRIEND" }] :=
  C4_ledger_record _ _ ⟨"FRIEND", 10, 1⟩ "p1" "0xUSER" "a@b.c" "0xHASH"
    "NEWCODE" ⟨5, "0xPAY"⟩ ⟨100⟩ 2000 rfl rfl rfl
    (by norm_num [bonusValue, ratTrunc]) rfl rfl rfl rfl rfl rfl rfl

/-- Counterexample to C4 as stated: the wallet submission succeeds (the
hash is returned and execution proceeds to referral issuance), but the
referral call throws and zero — not exactly one — ledger records are
attempted. -/
theorem C4_counterexample :
    walletCalls (transfer happyInput
        { happyEnv with referralResult := Except.error ErrKind.other }) =
      [("0xPAY", 25000000000000000)] ∧
    Event.callGetUserReferralCode "0xUSER" "a@b.c" ∈
      transfer happyInput
        { happyEnv with referralResult := Except.error ErrKind.other } ∧
    ledgerCalls (transfer happyInput
        { happyEnv with referralResult := Except.error ErrKind.other }) =
      [] := by
  have ht : transfer happyInput
      { happyEnv with referralResult := Except.error ErrKind.other } =
      [Event.setLoading true, Event.setError "", Event.callGetPartnerData "p1",
       Event.callValidateNetwork, Event.callGetConversionRate,
       Event.addBeforeUnload,
       Event.callSendUserOperation "0xPAY" 25000000000000000,
       Event.callGetUserReferralCode "0xUSER" "a@b.c",
       Event.setError msgGeneric, Event.setLoading false] := by
    norm_num [transfer, tryBody, validateAmount, catchEvents, happyEnv,
      happyInput, transferSchemaParse, bonusValue, ratTrunc, paramsGet, truthy]
  rw [ht]
  exact ⟨rfl, by simp, rfl⟩

/-- C5: when the wallet submission succeeds but the ledger returns a
falsy status, the user is still routed to the result screen with the
encoded successful outcome; the recording failure only sets a warning
message after navigation — it is not a hard failure. -/
theorem C5_recording_failure (input : RawInput) (env : Env)
    (req : TransferType) (pid wallet email hash urc : String)
    (d : PartnerData) (cat : CatalogData) (rate : ℚ)
    (hreq : transferSchemaParse input = some req)
    (hpid : env.partnerId = some pid)
    (hcat : env.catalogData = some cat)
    (hok : ¬(cat.availableSmartNodes < req.amount + (bonusValue req.amount : ℚ)))
    (hemail : env.storedEmail = some email)
    (hnet : env.networkOk = Except.ok true)
    (husr : env.user = some wallet)
    (hctx : env.contextData = some d)
    (hconv : env.conversionRate = Except.ok rate)
    (hsend : env.sendResult = Except.ok hash)
    (href : env.referralResult = Except.ok urc)
    (htrk : env.trackerResult = Except.ok false) :
    Event.navigate (encryptData hash email) ∈ transfer input env ∧
    Event.setError msgGeneric ∈ transfer input env ∧
    finalError (transfer input env) = msgGeneric := by
  cases htf : truthy (paramsGet env.searchParams "testSuccessModalOption") <;>
    refine ⟨?_, ?_, ?_⟩ <;>
      simp [transfer, tryBody, validateAmount, catchEvents, hreq, hpid, hcat,
        hok, hemail, hnet, husr, hctx, hconv, hsend, href, htrk, htf,
        finalError, errorsSet]

/-- Witness for C5: happy environment except the tracker reports failure —
navigation to the result screen still happens and the warning is set. -/
theorem C5_witness :
    Event.navigate (encryptData "0xHASH" "a@b.c") ∈
      transfer happyInput
        { happyEnv with trackerResult := Except.ok false } ∧
    Event.setError msgGeneric ∈
      transfer happyInput
        { happyEnv with trackerResult := Except.ok false } ∧
    finalError (transfer happyInput
        { happyEnv with trackerResult := Except.ok false }) = msgGeneric :=
  C5_recording_failure _ _ ⟨"FRIEND", 10, 1⟩ "p1" "0xUSER" "a@b.c" "0xHASH"
    "NEWCODE" ⟨5, "0xPAY"⟩ ⟨100⟩ 2000 rfl rfl rfl
    (by norm_num [bonusValue, ratTrunc]) rfl rfl rfl rfl rfl rfl rfl rfl

/-- Any wallet submission event occurring in the try body targets the
partner's payments wallet with exactly `⌊(currentPrice·amount/rate)·10¹⁸⌋`
in the chain's smallest unit. -/
theorem wallet_in_tryBody (req : TransferType) (email : String) (env : Env)
    (d : PartnerData) (rate : ℚ) (t : String) (v : ℤ)
    (hctx : env.contextData = some d)
    (hconv : env.conversionRate = Except.ok rate)
    (hv : Event.callSendUserOperation t v ∈ tryBody req email env) :
    t = d.paymentsWallet ∧
    v = ⌊d.currentPrice * req.amount / rate * 10 ^ 18⌋ := by
  unfold tryBody at hv
  rw [hctx] at hv
  rcases hnet : env.networkOk with e | b <;> rw [hnet] at hv
  · simp [wallet_not_in_catchEvents env e t v] at hv
  cases b
  · simp at hv
  rcases husr : env.user with _ | wallet <;> rw [husr] at hv
  · simp [wallet_not_in_catchEvents env ErrKind.other t v] at hv
  rcases hpid : env.partnerId with _ | pid <;> rw [hpid] at hv
  · simp [wallet_not_in_catchEvents env ErrKind.other t v] at hv
  rw [hconv] at hv
  rcases hsend : env.sendResult with es | hash <;> rw [hsend] at hv
  · simp [wallet_not_in_catchEvents env es t v] at hv
    exact hv
  rcases href : env.referralResult with er | urc <;> rw [href] at hv
  · simp [wallet_not_in_catchEvents env er t v] at hv
    exact hv
  rcases htrk : env.trackerResult with et | status <;> rw [htrk] at hv
  · simp [wallet_not_in_catchEvents env et t v] at hv
    exact hv
  cases status <;> simp at hv <;> exact hv

/-- Any wallet submission event in a `transfer` trace arises inside the
try body, after the schema, capacity and stored-email validations have
passed. -/
theorem wallet_in_transfer (input : RawInput) (env : Env)
    (req : TransferType) (t : String) (v : ℤ)
    (hreq : transferSchemaParse input = some req)
    (hv : Event.callSendUserOperation t v ∈ transfer input env) :
    ∃ email, env.storedEmail = some email ∧
      Event.callSendUserOperation t v ∈ tryBody req email env := by
  unfold transfer at hv
  rw [hreq] at hv
  rcases hpid : env.partnerId with _ | pid
  · simp [validateAmount, hpid] at hv
  rcases hcat : env.catalogData with _ | cat
  · simp [validateAmount, hpid, hcat] at hv
  by_cases hc : cat.availableSmartNodes < req.amount + (bonusValue req.amount : ℚ)
  · simp [validateAmount, hpid, hcat, hc] at hv
  rcases hem : env.storedEmail with _ | email
  · simp [validateAmount, hpid, hcat, hc, hem] at hv
  cases htf : truthy (paramsGet env.searchParams "testSuccessModalOption") <;>
    simp [validateAmount, hpid, hcat, hc, hem, htf] at hv <;>
    exact ⟨email, rfl, hv⟩

/-- C1: every execution that reaches the wallet submission submits exactly
`⌊(currentPrice · quantity / rate) · 10¹⁸⌋` smallest-unit tokens, a
non-negative integer (for the spec's positive quantity, non-negative price
and positive rate); at price 5, quantity 10, rate 2000 this amount is
exactly 25000000000000000. -/
theorem C1_submitted_amount (input : RawInput) (env : Env)
    (req : TransferType) (d : PartnerData) (rate : ℚ) (t : String) (v : ℤ)
    (hreq : transferSchemaParse input = some req)
    (hctx : env.contextData = some d)
    (hconv : env.conversionRate = Except.ok rate)
    (hp : 0 ≤ d.currentPrice) (hq : 0 < req.amount) (hr : 0 < rate)
    (hv : Event.callSendUserOperation t v ∈ transfer input env) :
    v = ⌊d.currentPrice * req.amount / rate * 10 ^ 18⌋ ∧ 0 ≤ v ∧
    (d.currentPrice = 5 ∧ req.amount = 10 ∧ rate = 2000 →
      v = 25000000000000000) := by
  obtain ⟨email, hem, hv2⟩ := wallet_in_transfer input env req t v hreq hv
  obtain ⟨hteq, hveq⟩ := wallet_in_tryBody req email env d rate t v hctx hconv hv2
  refine ⟨hveq, ?_, ?_⟩
  · rw [hveq]
    have h1 : (0:ℚ) ≤ d.currentPrice * req.amount := mul_nonneg hp hq.le
    have h2 : (0:ℚ) ≤ d.currentPrice * req.amount / rate := div_nonneg h1 hr.le
    have h3 : (0:ℚ) ≤ d.currentPrice * req.amount / rate * 10 ^ 18 :=
      mul_nonneg h2 (by positivity)
    exact Int.le_floor.mpr (by exact_mod_cast h3)
  · rintro ⟨h5, h10, h2000⟩
    rw [hveq, h5, h10, h2000]
    norm_num

/-- Witness for C1, the spec's concrete scenario on the happy path:
price 5, quantity 10, rate 2000 submit 25000000000000000 wei. -/
theorem C1_witness :
    (25000000000000000 : ℤ) = ⌊(5:ℚ) * 10 / 2000 * 10 ^ 18⌋ ∧
    (0:ℤ) ≤ 25000000000000000 ∧
    ((5:ℚ) = 5 ∧ (10:ℚ) = 10 ∧ (2000:ℚ) = 2000 →
      (25000000000000000 : ℤ) = 25000000000000000) :=
  C1_submitted_amount happyInput happyEnv ⟨"FRIEND", 10, 1⟩ ⟨5, "0xPAY"⟩ 2000
    "0xPAY" 25000000000000000 rfl rfl rfl (by norm_num) (by norm_num)
    (by norm_num) (by rw [transfer_happy_eval]; simp)

/-- Witness for C3 at quantity 9 (bonus 3 = ⌊9/3⌋) and quantity 2
(bonus 0). -/
theorem C3_witness : bonusValue 9 = ⌊(9:ℚ) / 3⌋ ∧ bonusValue 2 = 0 :=
  ⟨(C3_bonus_formula.1 9).1 (by norm_num), (C3_bonus_formula.1 2).2 (by norm_num)⟩

/-- Witness for C9 (amended): the happy invocation is unchanged by the
inProgress flag. -/
theorem C9_witness :
    transfer happyInput { happyEnv with loading := true } =
      transfer happyInput { happyEnv with loading := false } :=
  C9_no_reentrancy_guard happyInput happyEnv
